import Mathlib

/-!
Verification development for the `smartlife` Home Assistant integration
(`custom_components/smartlife/base.py` and `custom_components/smartlife/button.py`).

The Python code is shallowly embedded: dictionaries become association lists,
Python numbers become `Int`/`ℚ`, fallible code returns `Except PyError`, and
the outcome of `json.loads` on a raw `values` string is recorded by the `Blob`
type (a string either fails to parse or yields a JSON document).
-/

/-- The Python exception kinds that the embedded code can raise. -/
inductive PyError
  /-- `json.JSONDecodeError`, raised by `json.loads` on unparseable input
  (including the empty string). -/
  | jsonDecodeError
  /-- `KeyError`, raised by `parsed["k"]` on a dict missing `"k"`. -/
  | keyError
  /-- `TypeError`, raised e.g. by `int(None)`, by subscripting a non-dict, or
  by `cls(**parsed)` with unexpected keyword arguments. -/
  | typeError
  /-- `ValueError`, raised by `int(s)` / `float(s)` on a non-numeric string. -/
  | valueError
  /-- `AttributeError`, raised by `.type` on a plain status value. -/
  | attributeError
  /-- `struct.error`, raised by `struct.unpack` on a buffer of the wrong size. -/
  | structError
  /-- `ZeroDivisionError`. -/
  | zeroDivisionError
deriving DecidableEq, Repr

/-- A JSON document as produced by Python's `json.loads`.  Python's `int` and
`float` are both modelled by `ℚ` (the schema numbers in play are exact
decimals). -/
inductive JValue
  | null
  | bool (b : Bool)
  | num (q : ℚ)
  | str (s : String)
  | arr (xs : List JValue)
  | obj (fields : List (String × JValue))

/-- A raw `values` blob as stored in a capability descriptor.  Python's
`json.loads` partitions input strings into those that fail to parse — among
them the empty string — and those that yield a JSON document; the embedding
records that outcome. -/
inductive Blob
  | malformed
  | parsed (v : JValue)

/-- Python dict lookup `d.get(k)` over an association list. -/
def dictGet {α : Type} (k : String) : List (String × α) → Option α
  | [] => none
  | (k2, v) :: rest => if k = k2 then some v else dictGet k rest

/-- Python dict subscript `d[k]`: raises `KeyError` when absent. -/
def getItem (fields : List (String × JValue)) (k : String) : Except PyError JValue :=
  match dictGet k fields with
  | some v => .ok v
  | none => .error .keyError

/-- Python truthiness of a parsed JSON document (`not parsed`): `null`,
`false`, `0`, `""`, `[]` and `{}` are falsy. -/
def jsonFalsy : JValue → Bool
  | .null => true
  | .bool b => !b
  | .num q => q = 0
  | .str s => s.isEmpty
  | .arr xs => xs.isEmpty
  | .obj fs => fs.isEmpty

/-- Python `int(q)` on a number: truncation toward zero. -/
def pyTrunc (q : ℚ) : ℤ := if 0 ≤ q then ⌊q⌋ else ⌈q⌉

/-- Digit run to a natural number; `none` when a non-digit occurs. -/
def digitsVal : List Char → Option Nat
  | [] => some 0
  | c :: rest =>
    if c.isDigit then
      (digitsVal rest).map (fun n => (c.toNat - 48) * 10 ^ rest.length + n)
    else none

/-- Fractional digit run to a rational in `[0,1)`. -/
def fracVal : List Char → Option ℚ
  | [] => some 0
  | c :: rest =>
    if c.isDigit then
      (fracVal rest).map (fun q => ((c.toNat - 48 : ℕ) + q) / 10)
    else none

/-- The decimal-literal fragment of Python's `float(s)`: optional sign,
digits, optional point and fractional digits.  (Python additionally accepts
surrounding whitespace, exponents, `inf`/`nan` and underscores; vendor schema
strings do not use those forms.) -/
def parseDecimal (s : String) : Option ℚ :=
  let core : List Char → Option ℚ := fun cs =>
    match cs.span Char.isDigit with
    | (ds, []) =>
      if ds.isEmpty then none else (digitsVal ds).map (fun n => (n : ℚ))
    | (ds, '.' :: fs) =>
      if ds.isEmpty && fs.isEmpty then none
      else match digitsVal ds, fracVal fs with
        | some n, some f => if fs.all Char.isDigit then some ((n : ℚ) + f) else none
        | _, _ => none
    | (_, _) => none
  match s.toList with
  | '-' :: rest => (core rest).map Neg.neg
  | '+' :: rest => core rest
  | rest => core rest

/-- Python `int(x)` on a JSON value: numbers truncate toward zero, booleans
give 0/1, integer-literal strings convert, any other string raises
`ValueError`, and non-scalar values raise `TypeError`. -/
def pyToInt : JValue → Except PyError ℤ
  | .num q => .ok (pyTrunc q)
  | .bool b => .ok (if b then 1 else 0)
  | .str s =>
    match s.toInt? with
    | some n => .ok n
    | none => .error .valueError
  | _ => .error .typeError

/-- Python `float(x)` on a JSON value: numbers pass through, booleans give
0/1, decimal-literal strings convert, other strings raise `ValueError`,
non-scalar values raise `TypeError`. -/
def pyToFloat : JValue → Except PyError ℚ
  | .num q => .ok q
  | .bool b => .ok (if b then 1 else 0)
  | .str s =>
    match parseDecimal s with
    | some q => .ok q
    | none => .error .valueError
  | _ => .error .typeError

/-- Python's `10 ** scale`.  Every vendor schema carries an integral `scale`
(the glossary defines scale as a power-of-ten exponent), so the embedding
computes the integer power `10 ^ ⌊scale⌋`; for the integral scales that occur
this is exactly the source's float power. -/
def pow10 (s : ℚ) : ℚ := (10 : ℚ) ^ s.num

/-- Fractional decimal digits of `r / d`, most significant first, stopping at
remainder zero or when `fuel` runs out. -/
def fracDigits : Nat → Nat → Nat → List Nat
  | 0, _, _ => []
  | _ + 1, 0, _ => []
  | fuel + 1, r, d => (r * 10 / d) :: fracDigits fuel (r * 10 % d) d

/-- Python `str(x)` on a float holding an exact short decimal: sign, integer
part, a point, and the fractional digits (`"0"` when none, as in
`str(10.0) = "10.0"`).  For the values decoded by `from_raw` — multiples of
`1/10` or `1/1000` below `2^24/1000` — this is exactly CPython's float `str`. -/
def floatStr (q : ℚ) : String :=
  let sign := if q < 0 then "-" else ""
  let n := q.num.natAbs
  let d := q.den
  let digs := fracDigits 40 (n % d) d
  let fracStr :=
    if digs.isEmpty then "0"
    else String.mk (digs.map (fun k => Char.ofNat (48 + k)))
  sign ++ toString (n / d) ++ "." ++ fracStr

/-- Modelled from the spec: the pure helper `remap_value` lives in
`custom_components/smartlife/util.py`, which is not among the provided source
files.  Per spec section 4.1 it is the linear interpolation of `value` from
`[from_min, from_max]` into `[to_min, to_max]`; when `reverse` is true the
output range is traversed in descending order, the result being
`to_max - (normalized * (to_max - to_min))`; `from_max == from_min` fails with
a DivisionByZero-class error.  The Python defaults are
`to_min = 0`, `to_max = 255`, `reverse = False`. -/
def remap_value (value from_min from_max to_min to_max : ℚ) (reverse : Bool) :
    Except PyError ℚ :=
  if from_max = from_min then .error .zeroDivisionError
  else
    let normalized := (value - from_min) / (from_max - from_min)
    if reverse then .ok (to_max - normalized * (to_max - to_min))
    else .ok (to_min + normalized * (to_max - to_min))

/-- `IntegerTypeData` from `base.py`.  The dataclass annotations
`unit : str | None` and `type : str | None` are not enforced at runtime —
`from_json` stores whatever JSON value the keys hold — so those fields keep
the parsed JSON value. -/
structure IntegerTypeData where
  dpcode : String
  min : ℤ
  max : ℤ
  scale : ℚ
  step : ℚ
  unit : Option JValue
  type : Option JValue

/-- `scale_value`: `value / (10 ** scale)`. -/
def IntegerTypeData.scale_value (t : IntegerTypeData) (value : ℚ) : ℚ :=
  value / pow10 t.scale

/-- `scale_value_back`: `int(value * (10 ** scale))`. -/
def IntegerTypeData.scale_value_back (t : IntegerTypeData) (value : ℚ) : ℤ :=
  pyTrunc (value * pow10 t.scale)

/-- `max_scaled` property. -/
def IntegerTypeData.max_scaled (t : IntegerTypeData) : ℚ :=
  t.scale_value t.max

/-- `min_scaled` property. -/
def IntegerTypeData.min_scaled (t : IntegerTypeData) : ℚ :=
  t.scale_value t.min

/-- `step_scaled` property. -/
def IntegerTypeData.step_scaled (t : IntegerTypeData) : ℚ :=
  t.step / pow10 t.scale

/-- `remap_value_to`: remap out of this schema's own `[min, max]` range.
Python defaults: `to_min = 0`, `to_max = 255`, `reverse = False`. -/
def IntegerTypeData.remap_value_to (t : IntegerTypeData)
    (value to_min to_max : ℚ) (reverse : Bool) : Except PyError ℚ :=
  remap_value value t.min t.max to_min to_max reverse

/-- `remap_value_from`: remap into this schema's own `[min, max]` range.
Python defaults: `from_min = 0`, `from_max = 255`, `reverse = False`. -/
def IntegerTypeData.remap_value_from (t : IntegerTypeData)
    (value from_min from_max : ℚ) (reverse : Bool) : Except PyError ℚ :=
  remap_value value from_min from_max t.min t.max reverse

/-- The record-construction half of `IntegerTypeData.from_json`, on the
truthy parsed document: read `min`, `max`, `scale`, `step` in that order (each
raising `KeyError` when absent or a conversion error when non-numeric) with
`step` floored at 1, and the optional `unit` and `type` via `.get`.  A truthy
non-dict document makes `parsed["min"]` raise `TypeError`. -/
def IntegerTypeData.fromDoc (dpcode : String) :
    JValue → Except PyError (Option IntegerTypeData)
  | .obj fields => do
    let mn ← getItem fields "min" >>= pyToInt
    let mx ← getItem fields "max" >>= pyToInt
    let sc ← getItem fields "scale" >>= pyToFloat
    let st ← getItem fields "step" >>= pyToFloat
    pure (some
      { dpcode := dpcode, min := mn, max := mx, scale := sc,
        step := Max.max st 1,
        unit := dictGet "unit" fields, type := dictGet "type" fields })
  | _ => .error .typeError

/-- `IntegerTypeData.from_json` proper: `json.loads` outcome, falsy check,
then the record construction above. -/
def IntegerTypeData.from_json (dpcode : String) (data : Blob) :
    Except PyError (Option IntegerTypeData) :=
  match data with
  | .malformed => .error .jsonDecodeError
  | .parsed v =>
    if jsonFalsy v then .ok none
    else IntegerTypeData.fromDoc dpcode v

/-- `EnumTypeData` from `base.py`.  The dataclass annotation
`range : list[str]` is not enforced at runtime; `from_json` stores whatever
JSON value the `range` key holds, so the field keeps the parsed JSON value. -/
structure EnumTypeData where
  dpcode : String
  range : JValue

/-- `EnumTypeData.from_json`: `json.loads` the blob, return `None` for a
falsy document, else `cls(dpcode, **parsed)` — which succeeds exactly when the
document is a dict whose single key is `"range"`, and raises `TypeError`
otherwise (unexpected keyword arguments, duplicate `dpcode`, or unpacking a
non-dict). -/
def EnumTypeData.from_json (dpcode : String) (data : Blob) :
    Except PyError (Option EnumTypeData) :=
  match data with
  | .malformed => .error .jsonDecodeError
  | .parsed v =>
    if jsonFalsy v then .ok none
    else
      match v with
      | .obj [("range", r)] => .ok (some { dpcode := dpcode, range := r })
      | _ => .error .typeError

/-- `ElectricityTypeData` from `base.py` (all fields default to `None` in the
dataclass; `from_raw` fills all three). -/
structure ElectricityTypeData where
  electriccurrent : Option String
  power : Option String
  voltage : Option String

/-- `struct.unpack` of a big-endian unsigned field from exactly `n` bytes:
`none` (a `struct.error`) when the buffer length differs. -/
def unpackBE (n : Nat) (bs : List Nat) : Option Nat :=
  if bs.length = n then some (bs.foldl (fun acc b => acc * 256 + b) 0) else none

/-- `ElectricityTypeData.from_raw` over the decoded base64 payload (the
`base64.b64decode` library call is abstracted: `raw` is its output byte
string).  `>H` reads `raw[0:2]` (2 bytes); each `>L` reads a 3-byte slice
prefixed with a zero byte, so its value is the 3 bytes in base 256.  A slice
of the wrong length makes `struct.unpack` raise `struct.error`. -/
def ElectricityTypeData.from_raw (raw : List Nat) :
    Except PyError ElectricityTypeData :=
  match unpackBE 2 (raw.take 2) with
  | none => .error .structError
  | some v =>
    match unpackBE 3 ((raw.drop 2).take 3) with
    | none => .error .structError
    | some c =>
      match unpackBE 3 ((raw.drop 5).take 3) with
      | none => .error .structError
      | some p =>
        .ok { electriccurrent := some (floatStr ((c : ℚ) / 1000)),
              power := some (floatStr ((p : ℚ) / 1000)),
              voltage := some (floatStr ((v : ℚ) / 10)) }

/-- Modelled from the spec: `DPType` is defined in
`custom_components/smartlife/const.py`, which is not among the provided source
files.  The spec describes it as the tag enum with the members `INTEGER` and
`ENUM` that `find_dpcode` can require (`dptype` is "INTEGER | ENUM | none"),
alongside the other standard Tuya value-type tags; `find_dpcode` only ever
distinguishes `ENUM`, `INTEGER` and "anything else".  No member is falsy, so
`not dptype` in the source is exactly "`dptype` is `None`". -/
inductive DPType
  | BOOLEAN
  | ENUM
  | INTEGER
  | JSON
  | RAW
  | STRING
deriving DecidableEq, Repr

/-- A capability descriptor as supplied by the `tuya_sharing` device model
(its `DeviceFunction` and `DeviceStatusRange` classes both carry a `type` tag
and a raw `values` blob; the `code` is the dictionary key). -/
structure DeviceFunction where
  type : DPType
  values : Blob

/-- The slice of the `tuya_sharing` `CustomerDevice` that `find_dpcode` and
button discovery read: the device category and the three capability
dictionaries.  `status_range` and `function` map DP codes to descriptors;
`status` maps DP codes to current raw values. -/
structure CustomerDevice where
  category : String
  status_range : List (String × DeviceFunction)
  function : List (String × DeviceFunction)
  status : List (String × JValue)

/-- The names `find_dpcode` indexes `getattr(self.device, key)` with. -/
inductive DictKey
  | status_range
  | function
  | status
deriving DecidableEq, Repr

/-- An entry found in one of the three dictionaries: a descriptor (from
`status_range` or `function`) or a plain status value (from `status`). -/
inductive DictEntry
  | desc (d : DeviceFunction)
  | raw (v : JValue)

/-- `getattr(self.device, key)[dpcode]`, as an `Option`. -/
def lookupIn (dev : CustomerDevice) (key : DictKey) (dpcode : String) :
    Option DictEntry :=
  match key with
  | .status_range => (dictGet dpcode dev.status_range).map DictEntry.desc
  | .function => (dictGet dpcode dev.function).map DictEntry.desc
  | .status => (dictGet dpcode dev.status).map DictEntry.raw

/-- The possible successful results of `find_dpcode`: a bare DP code, a parsed
enum schema, or a parsed integer schema. -/
inductive DPResult
  | code (c : String)
  | enum (e : EnumTypeData)
  | integer (i : IntegerTypeData)

/-- The dictionary search order of `find_dpcode`: `[status_range, function]`,
flipped when `prefer_function`, with `status` appended exactly when no
specific `dptype` is requested (`not dptype`). -/
def searchOrder (prefer_function : Bool) (dptype : Option DPType) :
    List DictKey :=
  (if prefer_function then [DictKey.function, DictKey.status_range]
   else [DictKey.status_range, DictKey.function]) ++
  (if dptype.isNone then [DictKey.status] else [])

/-- The body of the inner loop of `find_dpcode` (`for key in order`), run on
the entry found for the candidate code; `next` is the rest of the search,
reached when the body neither returns nor raises (Python's fall-through to the
next dictionary).  On a descriptor hit: with `dptype == ENUM` and a matching
type tag, a parse error propagates, a falsy document (`from_json` returning
`None`) falls through, and a parsed schema is returned; symmetrically for
`INTEGER`; with any other requested `dptype` the loop body ends and the search
continues; with `dptype` neither `ENUM` nor `INTEGER` the bare code is
returned on the first hit.  A hit in `status` returns the bare code the same
way — the type-tag comparisons would raise `AttributeError` on a plain status
value, but `status` is only ever searched when `dptype` is `None`. -/
def stepEntry (dptype : Option DPType) (dpcode : String)
    (next : Except PyError (Option DPResult)) :
    DictEntry → Except PyError (Option DPResult)
  | .raw _ =>
    if dptype = some DPType.ENUM ∨ dptype = some DPType.INTEGER then
      .error .attributeError
    else .ok (some (.code dpcode))
  | .desc d =>
    if dptype = some DPType.ENUM then
      if d.type = DPType.ENUM then
        match EnumTypeData.from_json dpcode d.values with
        | .error e => .error e
        | .ok none => next
        | .ok (some et) => .ok (some (.enum et))
      else next
    else if dptype = some DPType.INTEGER then
      if d.type = DPType.INTEGER then
        match IntegerTypeData.from_json dpcode d.values with
        | .error e => .error e
        | .ok none => next
        | .ok (some it) => .ok (some (.integer it))
      else next
    else .ok (some (.code dpcode))

/-- The dictionary loop of `find_dpcode`: skip dictionaries not containing the
code, and run the loop body (`stepEntry`) on a hit, falling through to the
remaining dictionaries where the body neither returns nor raises. -/
def searchDicts (dev : CustomerDevice) (dptype : Option DPType)
    (dpcode : String) : List DictKey → Except PyError (Option DPResult)
  | [] => .ok none
  | key :: rest =>
    match lookupIn dev key dpcode with
    | none => searchDicts dev dptype dpcode rest
    | some entry => stepEntry dptype dpcode (searchDicts dev dptype dpcode rest) entry

/-- The outer loop of `find_dpcode` (`for dpcode in dpcodes`): the first
candidate that resolves in some dictionary wins; an exception raised while
resolving a candidate propagates. -/
def searchCodes (dev : CustomerDevice) (dptype : Option DPType)
    (order : List DictKey) : List String → Except PyError (Option DPResult)
  | [] => .ok none
  | c :: cs =>
    match searchDicts dev dptype c order with
    | .ok none => searchCodes dev dptype order cs
    | .ok (some r) => .ok (some r)
    | .error e => .error e

/-- `SmartLifeEntity.find_dpcode`.  The method's `None`/single-string/tuple
input normalisation yields a tuple of candidate codes, embedded as the list
`dpcodes`; the search order is computed once and the candidate codes are then
searched in order. -/
def find_dpcode (dev : CustomerDevice) (dpcodes : List String)
    (prefer_function : Bool) (dptype : Option DPType) :
    Except PyError (Option DPResult) :=
  searchCodes dev dptype (searchOrder prefer_function dptype) dpcodes

/-- The slice of Home Assistant's `ButtonEntityDescription` that
`button.py` populates: the DP-code key, display name, icon, and optional
entity category. -/
structure ButtonEntityDescription where
  key : String
  name : String
  icon : String
  entity_category : Option String
deriving DecidableEq, Repr

/-- Modelled from the spec: the `DPCode` string-enum members referenced by
`button.py` are defined in `custom_components/smartlife/const.py`, which is
not among the provided source files.  The member values are modelled as their
lower-cased member names (the Tuya DP-code convention); the discovery logic
under verification depends only on the keys being distinct strings. -/
def DPCodeStrings : List String :=
  ["reset_duster_cloth", "reset_edge_brush", "reset_filter", "reset_map",
   "reset_roll_brush", "switch_usb6", "gate_open", "gate_close", "gate_stop",
   "gate_lock"]

/-- The `BUTTONS` table of `button.py`: per-category button descriptions. -/
def BUTTONS : List (String × List ButtonEntityDescription) :=
  [("sd",
    [{ key := "reset_duster_cloth", name := "Reset duster cloth",
       icon := "mdi:restart", entity_category := some "config" },
     { key := "reset_edge_brush", name := "Reset edge brush",
       icon := "mdi:restart", entity_category := some "config" },
     { key := "reset_filter", name := "Reset filter",
       icon := "mdi:air-filter", entity_category := some "config" },
     { key := "reset_map", name := "Reset map",
       icon := "mdi:map-marker-remove", entity_category := some "config" },
     { key := "reset_roll_brush", name := "Reset roll brush",
       icon := "mdi:restart", entity_category := some "config" }]),
   ("hxd",
    [{ key := "switch_usb6", name := "Snooze",
       icon := "mdi:sleep", entity_category := none }]),
   ("qt",
    [{ key := "gate_open", name := "Open",
       icon := "mdi:gate-open", entity_category := none },
     { key := "gate_close", name := "Close",
       icon := "mdi:gate", entity_category := none },
     { key := "gate_stop", name := "Stop",
       icon := "mdi:stop", entity_category := none },
     { key := "gate_lock", name := "Lock",
       icon := "mdi:lock", entity_category := none }])]

/-- The per-device body of `async_discover_device` in `button.py`: the button
descriptions for which an entity is created.  `BUTTONS.get(category)` falsy
(absent category; no table entry is the empty tuple) yields no entities; for
category `"qt"` every description of the category is kept without consulting
`status`; for any other category a description is kept only when its key is
present in the device's `status` dictionary. -/
def discoverButtons (device : CustomerDevice) : List ButtonEntityDescription :=
  match dictGet device.category BUTTONS with
  | none => []
  | some descriptions =>
    descriptions.filter
      (fun description =>
        device.category = "qt" || (dictGet description.key device.status).isSome)

/-! Concrete fixtures used by the claim theorems and witnesses. -/

/-- An integer schema blob: `{"min": 0, "max": 100, "scale": 1, "step": 0.5}`. -/
def intSchemaBlob : Blob := Blob.parsed (JValue.obj
  [("min", JValue.num 0), ("max", JValue.num 100),
   ("scale", JValue.num 1), ("step", JValue.num (1/2))])

/-- The record `IntegerTypeData.from_json` builds from `intSchemaBlob`. -/
def intSchemaData : IntegerTypeData :=
  { dpcode := "c", min := 0, max := 100, scale := 1, step := 1,
    unit := none, type := none }

/-- An enum schema blob: `{"range": ["a"]}`. -/
def enumSchemaBlob : Blob :=
  Blob.parsed (JValue.obj [("range", JValue.arr [JValue.str "a"])])

/-- A device whose `status_range` entry for `"x"` is declared `ENUM` but holds
an unparseable `values` blob, while `function` holds a well-formed enum schema
for the same code. -/
def devMalformedEnum : CustomerDevice :=
  { category := "other",
    status_range := [("x", { type := DPType.ENUM, values := Blob.malformed })],
    function := [("x", { type := DPType.ENUM, values := enumSchemaBlob })],
    status := [] }

/-- A device whose `status_range` entry for `"x"` is declared `ENUM` with the
empty JSON document `{}` as `values`, while `function` holds a well-formed
enum schema for the same code. -/
def devEmptyDocEnum : CustomerDevice :=
  { category := "other",
    status_range := [("x", { type := DPType.ENUM,
                             values := Blob.parsed (JValue.obj []) })],
    function := [("x", { type := DPType.ENUM, values := enumSchemaBlob })],
    status := [] }

/-- A device with code `"x"` present only in `function` and code `"y"`
present only in `status_range`. -/
def devXfunYrange : CustomerDevice :=
  { category := "other",
    status_range :=
      [("y", { type := DPType.BOOLEAN, values := Blob.parsed (JValue.bool true) })],
    function :=
      [("x", { type := DPType.BOOLEAN, values := Blob.parsed (JValue.bool true) })],
    status := [] }

/-- A device with code `"z"` present only in the `status` dictionary. -/
def devStatusOnly : CustomerDevice :=
  { category := "other", status_range := [], function := [],
    status := [("z", JValue.num 5)] }

/-- A device whose `status_range` carries a well-formed integer schema for
code `"c"`. -/
def devIntSchema : CustomerDevice :=
  { category := "other",
    status_range := [("c", { type := DPType.INTEGER, values := intSchemaBlob })],
    function := [], status := [] }

/-- A gate-controller device (`category "qt"`) with an empty `status`
dictionary. -/
def devGate : CustomerDevice :=
  { category := "qt", status_range := [], function := [], status := [] }

/-- A vacuum device (`category "sd"`) whose `status` reports only
`reset_map`. -/
def devVacuum : CustomerDevice :=
  { category := "sd", status_range := [], function := [],
    status := [("reset_map", JValue.num 0)] }

/-! Helper lemmas shared by the claim proofs. -/

/-- Inversion for `Except` bind: a successful bind factors through a
successful first stage. -/
theorem except_bind_ok {ε α β : Type} {e : Except ε α} {k : α → Except ε β}
    {b : β} (h : e >>= k = .ok b) : ∃ a, e = .ok a ∧ k a = .ok b := by
  cases e with
  | error e => simp [Bind.bind, Except.bind] at h
  | ok a => exact ⟨a, rfl, by simpa [Bind.bind, Except.bind] using h⟩

/-- Inversion for the candidate loop: a successful resolution comes from some
candidate code's dictionary search. -/
theorem searchCodes_ok_some (dev : CustomerDevice) (dptype : Option DPType)
    (order : List DictKey) :
    ∀ (codes : List String) (r : DPResult),
      searchCodes dev dptype order codes = .ok (some r) →
      ∃ c, c ∈ codes ∧ searchDicts dev dptype c order = .ok (some r) := by
  intro codes
  induction codes with
  | nil => intro r h; simp [searchCodes] at h
  | cons c cs ih =>
    intro r h
    rw [searchCodes] at h
    cases hd : searchDicts dev dptype c order with
    | error e => rw [hd] at h; simp at h
    | ok o =>
      rw [hd] at h
      cases o with
      | none =>
        obtain ⟨c2, hm, hs⟩ := ih r h
        exact ⟨c2, List.mem_cons_of_mem _ hm, hs⟩
      | some r2 =>
        simp only [Except.ok.injEq, Option.some.injEq] at h
        exact ⟨c, List.mem_cons_self c cs, by rw [hd, h]⟩

/-- With `dptype == INTEGER`, a loop body that returns only ever returns an
`IntegerTypeData` (given that the fall-through continuation does). -/
theorem stepEntry_integer_shape (c : String)
    (next : Except PyError (Option DPResult)) (entry : DictEntry) (r : DPResult)
    (hnext : ∀ r2, next = .ok (some r2) → ∃ t, r2 = DPResult.integer t)
    (h : stepEntry (some DPType.INTEGER) c next entry = .ok (some r)) :
    ∃ t, r = DPResult.integer t := by
  cases entry with
  | raw v => simp [stepEntry] at h
  | desc d =>
    rw [stepEntry] at h
    rw [if_neg (by simp : ¬(some DPType.INTEGER = some DPType.ENUM))] at h
    rw [if_pos (rfl : some DPType.INTEGER = some DPType.INTEGER)] at h
    by_cases hd : d.type = DPType.INTEGER
    · rw [if_pos hd] at h
      cases hj : IntegerTypeData.from_json c d.values with
      | error e => rw [hj] at h; simp at h
      | ok o =>
        rw [hj] at h
        cases o with
        | none => exact hnext r h
        | some it =>
          simp only [Except.ok.injEq, Option.some.injEq] at h
          exact ⟨it, h.symm⟩
    · rw [if_neg hd] at h; exact hnext r h

/-- With `dptype == ENUM`, a loop body that returns only ever returns an
`EnumTypeData` (given that the fall-through continuation does). -/
theorem stepEntry_enum_shape (c : String)
    (next : Except PyError (Option DPResult)) (entry : DictEntry) (r : DPResult)
    (hnext : ∀ r2, next = .ok (some r2) → ∃ e, r2 = DPResult.enum e)
    (h : stepEntry (some DPType.ENUM) c next entry = .ok (some r)) :
    ∃ e, r = DPResult.enum e := by
  cases entry with
  | raw v => simp [stepEntry] at h
  | desc d =>
    rw [stepEntry] at h
    rw [if_pos (rfl : some DPType.ENUM = some DPType.ENUM)] at h
    by_cases hd : d.type = DPType.ENUM
    · rw [if_pos hd] at h
      cases hj : EnumTypeData.from_json c d.values with
      | error e => rw [hj] at h; simp at h
      | ok o =>
        rw [hj] at h
        cases o with
        | none => exact hnext r h
        | some et =>
          simp only [Except.ok.injEq, Option.some.injEq] at h
          exact ⟨et, h.symm⟩
    · rw [if_neg hd] at h; exact hnext r h

/-- With `dptype == INTEGER`, a successful dictionary search only ever yields
an `IntegerTypeData`. -/
theorem searchDicts_integer_shape (dev : CustomerDevice) (c : String) :
    ∀ (keys : List DictKey) (r : DPResult),
      searchDicts dev (some DPType.INTEGER) c keys = .ok (some r) →
      ∃ t, r = DPResult.integer t := by
  intro keys
  induction keys with
  | nil => intro r h; simp [searchDicts] at h
  | cons key rest ih =>
    intro r h
    rw [searchDicts] at h
    cases hl : lookupIn dev key c with
    | none => simp only [hl] at h; exact ih r h
    | some entry =>
      simp only [hl] at h
      exact stepEntry_integer_shape c _ entry r ih h

/-- With `dptype == ENUM`, a successful dictionary search only ever yields an
`EnumTypeData`. -/
theorem searchDicts_enum_shape (dev : CustomerDevice) (c : String) :
    ∀ (keys : List DictKey) (r : DPResult),
      searchDicts dev (some DPType.ENUM) c keys = .ok (some r) →
      ∃ e, r = DPResult.enum e := by
  intro keys
  induction keys with
  | nil => intro r h; simp [searchDicts] at h
  | cons key rest ih =>
    intro r h
    rw [searchDicts] at h
    cases hl : lookupIn dev key c with
    | none => simp only [hl] at h; exact ih r h
    | some entry =>
      simp only [hl] at h
      exact stepEntry_enum_shape c _ entry r ih h

/-- Claim C1, counterexample: a `status_range` descriptor declared `ENUM`
whose `values` blob does not parse (e.g. the empty string or malformed JSON)
makes the resolver raise the `json.loads` error — it propagates to the caller
instead of being treated as "no match", even though the `function` dictionary
holds a perfectly good enum schema for the same code. -/
theorem claim_C1_counterexample :
    find_dpcode devMalformedEnum ["x"] false (some DPType.ENUM) =
      .error PyError.jsonDecodeError := by
  with_unfolding_all rfl

/-- Claim C1 (amended): a descriptor whose `values` blob parses to an empty
(falsy) JSON document is treated as no match — the resolver continues with the
remaining dictionaries and candidates — and in particular a `status_range`
descriptor of declared type ENUM with the empty JSON document as `values` is
skipped in favor of the next dictionary; but a malformed or empty-string
`values` blob makes `json.loads` raise, and that parse error propagates to
the caller. -/
theorem claim_C1_amended :
    (∀ (dev : CustomerDevice) (c : String) (rest : List DictKey)
       (d : DeviceFunction) (v : JValue),
       dictGet c dev.status_range = some d → d.type = DPType.ENUM →
       d.values = Blob.parsed v → jsonFalsy v = true →
       searchDicts dev (some DPType.ENUM) c (DictKey.status_range :: rest) =
         searchDicts dev (some DPType.ENUM) c rest) ∧
    (∀ (dev : CustomerDevice) (c : String) (rest : List DictKey)
       (d : DeviceFunction),
       dictGet c dev.status_range = some d → d.type = DPType.ENUM →
       d.values = Blob.malformed →
       searchDicts dev (some DPType.ENUM) c (DictKey.status_range :: rest) =
         .error PyError.jsonDecodeError) ∧
    find_dpcode devEmptyDocEnum ["x"] false (some DPType.ENUM) =
      .ok (some (DPResult.enum
        { dpcode := "x", range := JValue.arr [JValue.str "a"] })) := by
  refine ⟨?_, ?_, by with_unfolding_all rfl⟩
  · intro dev c rest d v h1 h2 h3 h4
    rw [searchDicts]
    simp only [lookupIn, h1, Option.map_some']
    rw [stepEntry]
    rw [if_pos (rfl : some DPType.ENUM = some DPType.ENUM), if_pos h2, h3]
    simp [EnumTypeData.from_json, h4]
  · intro dev c rest d h1 h2 h3
    rw [searchDicts]
    simp only [lookupIn, h1, Option.map_some']
    rw [stepEntry]
    rw [if_pos (rfl : some DPType.ENUM = some DPType.ENUM), if_pos h2, h3]
    simp [EnumTypeData.from_json]

/-- Claim C1, witness for the amended claim: on the concrete device whose
`status_range` entry for `"x"` is ENUM-typed with `{}` as `values`, the inner
search over `[status_range, function]` equals the search over `[function]`
alone. -/
theorem claim_C1_amended_witness :
    dictGet "x" devEmptyDocEnum.status_range =
      some { type := DPType.ENUM, values := Blob.parsed (JValue.obj []) } ∧
    searchDicts devEmptyDocEnum (some DPType.ENUM) "x"
        [DictKey.status_range, DictKey.function] =
      searchDicts devEmptyDocEnum (some DPType.ENUM) "x" [DictKey.function] :=
  ⟨by with_unfolding_all rfl,
   claim_C1_amended.1 devEmptyDocEnum "x" [DictKey.function]
     { type := DPType.ENUM, values := Blob.parsed (JValue.obj []) }
     (JValue.obj []) (by with_unfolding_all rfl) rfl rfl rfl⟩

/-- Claim C2, counterexample: on a device where code `"x"` is present only in
`function` and code `"y"` only in `status_range`, the bare-code query for
`("x", "y")` returns `"x"` — not `"y"`'s match, contrary to the claim that the
default dictionary order makes `"y"` win before `"x"` is considered. -/
theorem claim_C2_counterexample :
    find_dpcode devXfunYrange ["x", "y"] false none =
      .ok (some (DPResult.code "x")) ∧
    find_dpcode devXfunYrange ["x", "y"] false none ≠
      .ok (some (DPResult.code "y")) := by
  constructor
  · with_unfolding_all rfl
  · intro h
    have h2 : find_dpcode devXfunYrange ["x", "y"] false none =
        .ok (some (DPResult.code "x")) := by with_unfolding_all rfl
    rw [h2] at h
    simp at h

/-- Claim C2 (amended): `find_dpcode` iterates candidate codes in their given
order and, for each candidate, iterates the search-order dictionaries; the
candidate loop is outermost, so with `dpcodes = ("x", "y")`, `dptype = None`,
`"x"` only in `function` and `"y"` only in `status_range`, the resolver
returns `"x"`'s match (found for the first candidate) and `"y"`'s match is
returned only when `"y"` precedes `"x"` in the candidate tuple. -/
theorem claim_C2_amended :
    find_dpcode devXfunYrange ["x", "y"] false none =
      .ok (some (DPResult.code "x")) ∧
    find_dpcode devXfunYrange ["y", "x"] false none =
      .ok (some (DPResult.code "y")) := by
  constructor
  · with_unfolding_all rfl
  · with_unfolding_all rfl

/-- Claim C3: `status` is searched exactly for bare-code queries — it belongs
to the search order iff no `dptype` is requested — so a code present only in
the `status` dictionary is returned by a bare-code query but yields no match
when `dptype` is ENUM or INTEGER, for either `prefer_function` setting. -/
theorem claim_C3_status_only (dev : CustomerDevice) (c : String) (pf : Bool)
    (h1 : dictGet c dev.status_range = none)
    (h2 : dictGet c dev.function = none)
    (h3 : (dictGet c dev.status).isSome = true) :
    (DictKey.status ∈ searchOrder pf none ∧
     ∀ dt : DPType, DictKey.status ∉ searchOrder pf (some dt)) ∧
    find_dpcode dev [c] pf none = .ok (some (DPResult.code c)) ∧
    find_dpcode dev [c] pf (some DPType.ENUM) = .ok none ∧
    find_dpcode dev [c] pf (some DPType.INTEGER) = .ok none := by
  obtain ⟨v, hv⟩ := Option.isSome_iff_exists.mp h3
  cases pf <;>
    simp [find_dpcode, searchOrder, searchCodes, searchDicts, stepEntry,
      lookupIn, h1, h2, hv]

/-- Claim C3, witness: a device reporting code `"z"` only in `status` yields
the bare code for a bare query and no match for typed queries. -/
theorem claim_C3_status_only_witness :
    dictGet "z" devStatusOnly.status_range = none ∧
    dictGet "z" devStatusOnly.function = none ∧
    (dictGet "z" devStatusOnly.status).isSome = true ∧
    find_dpcode devStatusOnly ["z"] false none =
      .ok (some (DPResult.code "z")) ∧
    find_dpcode devStatusOnly ["z"] false (some DPType.ENUM) = .ok none ∧
    find_dpcode devStatusOnly ["z"] false (some DPType.INTEGER) = .ok none :=
  ⟨by with_unfolding_all rfl, by with_unfolding_all rfl,
   by with_unfolding_all rfl,
   (claim_C3_status_only devStatusOnly "z" false (by with_unfolding_all rfl)
     (by with_unfolding_all rfl) (by with_unfolding_all rfl)).2.1,
   (claim_C3_status_only devStatusOnly "z" false (by with_unfolding_all rfl)
     (by with_unfolding_all rfl) (by with_unfolding_all rfl)).2.2.1,
   (claim_C3_status_only devStatusOnly "z" false (by with_unfolding_all rfl)
     (by with_unfolding_all rfl) (by with_unfolding_all rfl)).2.2.2⟩

/-- Claim C4: decoding the 8-byte payload `00 64 00 00 64 00 00 C8` yields
`voltage = "10.0"`, `electriccurrent = "0.1"`, `power = "0.2"`; more
generally, an 8-byte payload is read big-endian as a 2-byte voltage scaled by
10, a 3-byte current scaled by 1000, and a 3-byte power scaled by 1000. -/
theorem claim_C4_electricity_decode :
    (∀ b0 b1 b2 b3 b4 b5 b6 b7 : ℕ,
      ElectricityTypeData.from_raw [b0, b1, b2, b3, b4, b5, b6, b7] =
        .ok { electriccurrent :=
                some (floatStr ((((b2 * 256 + b3) * 256 + b4 : ℕ) : ℚ) / 1000)),
              power :=
                some (floatStr ((((b5 * 256 + b6) * 256 + b7 : ℕ) : ℚ) / 1000)),
              voltage :=
                some (floatStr (((b0 * 256 + b1 : ℕ) : ℚ) / 10)) }) ∧
    ElectricityTypeData.from_raw [0x00, 0x64, 0x00, 0x00, 0x64, 0x00, 0x00, 0xC8] =
      .ok { electriccurrent := some "0.1", power := some "0.2",
            voltage := some "10.0" } := by
  constructor
  · intro b0 b1 b2 b3 b4 b5 b6 b7
    simp [ElectricityTypeData.from_raw, unpackBE, List.take, List.drop, List.foldl]
  · with_unfolding_all rfl

/-- Claim C8: every decoded base64 payload shorter than 8 bytes makes
`ElectricityTypeData.from_raw` fail with a decode (`struct.error`) failure;
no partially filled record is returned. -/
theorem claim_C8_short_payload (raw : List ℕ) (h : raw.length < 8) :
    ElectricityTypeData.from_raw raw = .error .structError := by
  unfold ElectricityTypeData.from_raw unpackBE
  by_cases h2 : (raw.take 2).length = 2
  · rw [if_pos h2]
    have hl2 : 2 ≤ raw.length := by
      simp [List.length_take] at h2; omega
    by_cases h5 : ((raw.drop 2).take 3).length = 3
    · rw [if_pos h5]
      have hl5 : 5 ≤ raw.length := by
        simp [List.length_take, List.length_drop] at h5; omega
      have h8 : ¬((raw.drop 5).take 3).length = 3 := by
        simp [List.length_take, List.length_drop]; omega
      rw [if_neg h8]
    · rw [if_neg h5]
  · rw [if_neg h2]

/-- Claim C8, witness: the empty payload is shorter than 8 bytes and decoding
it fails with `struct.error`. -/
theorem claim_C8_short_payload_witness :
    ([] : List ℕ).length < 8 ∧
    ElectricityTypeData.from_raw [] = .error .structError :=
  ⟨by decide, claim_C8_short_payload [] (by decide)⟩

/-- Claim C5: every successful integer-schema parse yields `step >= 1`
(a smaller parsed step is clamped up to 1); in particular parsing
`{"min": 0, "max": 100, "scale": 1, "step": 0.5}` yields `step = 1` and
`max_scaled = 10`. -/
theorem claim_C5_step_clamped :
    (∀ (dp : String) (b : Blob) (t : IntegerTypeData),
       IntegerTypeData.from_json dp b = .ok (some t) → 1 ≤ t.step) ∧
    IntegerTypeData.from_json "c" intSchemaBlob = .ok (some intSchemaData) ∧
    intSchemaData.max_scaled = 10 := by
  refine ⟨?_, by with_unfolding_all rfl, ?_⟩
  · intro dp b t h
    cases b with
    | malformed => simp [IntegerTypeData.from_json] at h
    | parsed v =>
      rw [IntegerTypeData.from_json] at h
      by_cases hf : jsonFalsy v
      · simp [hf] at h
      · rw [if_neg hf] at h
        cases v with
        | obj fields =>
          rw [IntegerTypeData.fromDoc] at h
          obtain ⟨mn, hmn, h⟩ := except_bind_ok h
          obtain ⟨mx, hmx, h⟩ := except_bind_ok h
          obtain ⟨sc, hsc, h⟩ := except_bind_ok h
          obtain ⟨st, hst, h⟩ := except_bind_ok h
          simp only [pure, Except.pure, Except.ok.injEq, Option.some.injEq] at h
          rw [← h]
          exact le_max_right st 1
        | null => simp [IntegerTypeData.fromDoc] at h
        | bool b => simp [IntegerTypeData.fromDoc] at h
        | num q => simp [IntegerTypeData.fromDoc] at h
        | str s => simp [IntegerTypeData.fromDoc] at h
        | arr xs => simp [IntegerTypeData.fromDoc] at h
  · norm_num [intSchemaData, IntegerTypeData.max_scaled,
      IntegerTypeData.scale_value, pow10]

/-- Claim C5, witness: the concrete parse of
`{"min": 0, "max": 100, "scale": 1, "step": 0.5}` satisfies the clamp. -/
theorem claim_C5_step_clamped_witness :
    IntegerTypeData.from_json "c" intSchemaBlob = .ok (some intSchemaData) ∧
    1 ≤ intSchemaData.step :=
  ⟨by with_unfolding_all rfl,
   claim_C5_step_clamped.1 "c" intSchemaBlob intSchemaData
     (by with_unfolding_all rfl)⟩

/-- Claim C6: scaling round-trip — for every integer schema record and every
value `x` representable at the schema's precision (`x * 10^scale` is an
integer), `scale_value (scale_value_back x) = x`. -/
theorem claim_C6_round_trip (t : IntegerTypeData) (x : ℚ)
    (h : ∃ n : ℤ, x * pow10 t.scale = n) :
    t.scale_value (t.scale_value_back x) = x := by
  obtain ⟨n, hn⟩ := h
  have hp : pow10 t.scale ≠ 0 := by
    unfold pow10
    exact zpow_ne_zero _ (by norm_num)
  unfold IntegerTypeData.scale_value IntegerTypeData.scale_value_back pyTrunc
  rw [hn]
  have htr : (if (0 : ℚ) ≤ (n : ℚ) then ⌊(n : ℚ)⌋ else ⌈(n : ℚ)⌉) = n := by
    split
    · exact Int.floor_intCast n
    · exact Int.ceil_intCast n
  rw [htr, div_eq_iff hp, ← hn]

/-- Claim C6, witness: with scale 1, the value `1/2` survives the round trip
(`1/2 * 10 = 5` is an integer). -/
theorem claim_C6_round_trip_witness :
    (∃ n : ℤ, (1 / 2 : ℚ) * pow10 intSchemaData.scale = n) ∧
    intSchemaData.scale_value (intSchemaData.scale_value_back (1 / 2)) = 1 / 2 :=
  ⟨⟨5, by norm_num [intSchemaData, pow10]⟩,
   claim_C6_round_trip intSchemaData (1 / 2)
     ⟨5, by norm_num [intSchemaData, pow10]⟩⟩

/-- Claim C7 (the `remap_value` helper is modelled from the spec, its source
file not being provided): for `from_min < from_max`, `remap_value` maps
`from_min` to `to_min` and `from_max` to `to_max`; with `reverse = true` the
endpoints swap and the result is `to_max - normalized * (to_max - to_min)`;
the map is monotone in `value` (non-decreasing for `to_min <= to_max`,
non-increasing for `to_max <= to_min`); and `IntegerTypeData.remap_value_to`
and `remap_value_from` are exactly `remap_value` with the schema's own
`[min, max]` as one side of the mapping. -/
theorem claim_C7_remap (fm fM tm tM : ℚ) (h : fm < fM) :
    remap_value fm fm fM tm tM false = .ok tm ∧
    remap_value fM fm fM tm tM false = .ok tM ∧
    remap_value fm fm fM tm tM true = .ok tM ∧
    remap_value fM fm fM tm tM true = .ok tm ∧
    (∀ v, remap_value v fm fM tm tM true =
      .ok (tM - (v - fm) / (fM - fm) * (tM - tm))) ∧
    (∀ v1 v2 r1 r2, v1 ≤ v2 →
      remap_value v1 fm fM tm tM false = .ok r1 →
      remap_value v2 fm fM tm tM false = .ok r2 →
      (tm ≤ tM → r1 ≤ r2) ∧ (tM ≤ tm → r2 ≤ r1)) ∧
    (∀ (t : IntegerTypeData) (v a b : ℚ) (rev : Bool),
      t.remap_value_to v a b rev = remap_value v t.min t.max a b rev) ∧
    (∀ (t : IntegerTypeData) (v a b : ℚ) (rev : Bool),
      t.remap_value_from v a b rev = remap_value v a b t.min t.max rev) := by
  have hne : fM ≠ fm := ne_of_gt h
  have hd : (0 : ℚ) < fM - fm := sub_pos.mpr h
  have hdz : fM - fm ≠ 0 := ne_of_gt hd
  refine ⟨?_, ?_, ?_, ?_, ?_, ?_, fun t v a b rev => rfl, fun t v a b rev => rfl⟩
  · simp [remap_value, hne]
  · simp only [remap_value, if_neg hne, Bool.false_eq_true, if_false,
      Except.ok.injEq]
    rw [div_self hdz]
    ring
  · simp only [remap_value, if_neg hne, if_true, Except.ok.injEq]
    field_simp
  · simp only [remap_value, if_neg hne, if_true, Except.ok.injEq]
    rw [div_self hdz]
    ring
  · intro v
    simp [remap_value, hne]
  · intro v1 v2 r1 r2 hv h1 h2
    simp only [remap_value, if_neg hne, Bool.false_eq_true, if_false,
      Except.ok.injEq] at h1 h2
    have hnorm : (v1 - fm) / (fM - fm) ≤ (v2 - fm) / (fM - fm) :=
      (div_le_div_iff_of_pos_right hd).mpr (by linarith)
    constructor
    · intro ht
      rw [← h1, ← h2]
      have := mul_le_mul_of_nonneg_right hnorm (by linarith : (0 : ℚ) ≤ tM - tm)
      linarith
    · intro ht
      rw [← h1, ← h2]
      have := mul_le_mul_of_nonpos_right hnorm (by linarith : tM - tm ≤ 0)
      linarith

/-- Claim C7, witness: remapping `[0, 100]` onto `[0, 255]`. -/
theorem claim_C7_remap_witness :
    (0 : ℚ) < 100 ∧
    remap_value 0 0 100 0 255 false = .ok 0 ∧
    remap_value 100 0 100 0 255 false = .ok 255 ∧
    remap_value 0 0 100 0 255 true = .ok 255 :=
  ⟨by norm_num,
   (claim_C7_remap 0 100 0 255 (by norm_num)).1,
   (claim_C7_remap 0 100 0 255 (by norm_num)).2.1,
   (claim_C7_remap 0 100 0 255 (by norm_num)).2.2.1⟩

/-- Claim C9: a `find_dpcode` query with `dptype == INTEGER` only ever
resolves to an `IntegerTypeData`, and one with `dptype == ENUM` only to an
`EnumTypeData` — never a bare code or the other schema type; moreover a
descriptor whose declared type tag differs from the requested `dptype` is
skipped (the loop body falls through to the rest of the search). -/
theorem claim_C9 :
    (∀ (dev : CustomerDevice) (codes : List String) (pf : Bool) (r : DPResult),
       find_dpcode dev codes pf (some DPType.INTEGER) = .ok (some r) →
       ∃ t, r = DPResult.integer t) ∧
    (∀ (dev : CustomerDevice) (codes : List String) (pf : Bool) (r : DPResult),
       find_dpcode dev codes pf (some DPType.ENUM) = .ok (some r) →
       ∃ e, r = DPResult.enum e) ∧
    (∀ (dptype : Option DPType) (c : String)
       (next : Except PyError (Option DPResult)) (d : DeviceFunction),
       (dptype = some DPType.INTEGER ∧ d.type ≠ DPType.INTEGER) ∨
         (dptype = some DPType.ENUM ∧ d.type ≠ DPType.ENUM) →
       stepEntry dptype c next (DictEntry.desc d) = next) := by
  refine ⟨?_, ?_, ?_⟩
  · intro dev codes pf r h
    obtain ⟨c, _, hs⟩ := searchCodes_ok_some dev (some DPType.INTEGER)
      (searchOrder pf (some DPType.INTEGER)) codes r h
    exact searchDicts_integer_shape dev c _ r hs
  · intro dev codes pf r h
    obtain ⟨c, _, hs⟩ := searchCodes_ok_some dev (some DPType.ENUM)
      (searchOrder pf (some DPType.ENUM)) codes r h
    exact searchDicts_enum_shape dev c _ r hs
  · intro dptype c next d hmis
    rcases hmis with ⟨hdp, hty⟩ | ⟨hdp, hty⟩ <;> subst hdp <;>
      simp [stepEntry, hty]

/-- Claim C9, witness: on a device whose `status_range` holds an integer
schema for `"c"`, the `INTEGER`-typed query resolves and the result is an
`IntegerTypeData`. -/
theorem claim_C9_witness :
    find_dpcode devIntSchema ["c"] false (some DPType.INTEGER) =
      .ok (some (DPResult.integer intSchemaData)) ∧
    ∃ t, DPResult.integer intSchemaData = DPResult.integer t :=
  ⟨by with_unfolding_all rfl,
   claim_C9.1 devIntSchema ["c"] false (DPResult.integer intSchemaData)
     (by with_unfolding_all rfl)⟩

/-- Claim C10: during button discovery, a device of category `"qt"` gets a
button entity for every `"qt"` button description, its `status` dictionary
notwithstanding; a device of any other category gets an entity exactly for
the descriptions of its category whose key appears in its `status`
dictionary. -/
theorem claim_C10_button_discovery (device : CustomerDevice) :
    (device.category = "qt" →
      discoverButtons device = (dictGet "qt" BUTTONS).getD []) ∧
    (device.category ≠ "qt" →
      ∀ d, d ∈ discoverButtons device ↔
        d ∈ (dictGet device.category BUTTONS).getD [] ∧
          (dictGet d.key device.status).isSome) := by
  constructor
  · intro h
    unfold discoverButtons
    rw [h]
    have hq : dictGet "qt" BUTTONS =
        some [{ key := "gate_open", name := "Open",
                icon := "mdi:gate-open", entity_category := none },
              { key := "gate_close", name := "Close",
                icon := "mdi:gate", entity_category := none },
              { key := "gate_stop", name := "Stop",
                icon := "mdi:stop", entity_category := none },
              { key := "gate_lock", name := "Lock",
                icon := "mdi:lock", entity_category := none }] := by
      with_unfolding_all rfl
    rw [hq]
    simp
  · intro hne d
    unfold discoverButtons
    cases hb : dictGet device.category BUTTONS with
    | none => simp
    | some descs => simp [List.mem_filter, hne]

/-- Claim C10, witness: a `"qt"` device with empty `status` still gets all
four gate buttons; an `"sd"` device reporting only `reset_map` gets exactly
that button. -/
theorem claim_C10_button_discovery_witness :
    devGate.category = "qt" ∧
    discoverButtons devGate = (dictGet "qt" BUTTONS).getD [] ∧
    devVacuum.category ≠ "qt" ∧
    (({ key := "reset_map", name := "Reset map", icon := "mdi:map-marker-remove",
        entity_category := some "config" } : ButtonEntityDescription) ∈
          discoverButtons devVacuum ↔
      ({ key := "reset_map", name := "Reset map", icon := "mdi:map-marker-remove",
         entity_category := some "config" } : ButtonEntityDescription) ∈
          (dictGet devVacuum.category BUTTONS).getD [] ∧
        (dictGet "reset_map" devVacuum.status).isSome) :=
  ⟨rfl,
   (claim_C10_button_discovery devGate).1 rfl,
   by simp [devVacuum],
   (claim_C10_button_discovery devVacuum).2 (by simp [devVacuum])
     { key := "reset_map", name := "Reset map", icon := "mdi:map-marker-remove",
       entity_category := some "config" }⟩
